import Mathlib

/-!
Verification development for the Q&A unification subsystem of
`generador-modular-qa` (files `src/unifiers/data_unifier_simple.py` and
`src/utils/data_models.py`).

The Python code is shallowly embedded: every definition below is a direct
translation of the corresponding Python function.  Python `str` values are
modelled as Lean `String`/`List Char` (both count Unicode code points, like
Python `len`), Python `float` as `ℚ` (the module only multiplies by the
literal 1.2, halves sums, and divides by a length; on every comparison
appearing in the theorems below the IEEE-754 double result and the exact
rational result agree), Python `dict` as an insertion-ordered association
list, and raised exceptions as `Except.error`.
-/

namespace QAGen

/-! ### Python string primitives -/

/-- Model of Python `str.lower` applied to one character: ASCII letters plus
the accented Spanish letters that occur in this repository.  (Full Unicode
case mapping is not modelled; all strings in the theorems below stay inside
this alphabet.) -/
def pyLowerChar (c : Char) : Char :=
  if 65 ≤ c.toNat ∧ c.toNat ≤ 90 then Char.ofNat (c.toNat + 32)
  else match c with
  | 'Á' => 'á'
  | 'É' => 'é'
  | 'Í' => 'í'
  | 'Ó' => 'ó'
  | 'Ú' => 'ú'
  | 'Ñ' => 'ñ'
  | 'Ü' => 'ü'
  | _ => c

/-- Model of Python `str.lower`. -/
def pyLower (s : String) : String :=
  String.mk (s.data.map pyLowerChar)

/-- Characters removed by Python `str.strip()` (the ASCII whitespace class;
Unicode spaces beyond it are not modelled). -/
def pyIsSpace (c : Char) : Bool :=
  c = ' ' ∨ c = '\t' ∨ c = '\n' ∨ c = '\r' ∨ c = '\x0b' ∨ c = '\x0c'

/-- Model of Python `str.strip()` on a character list. -/
def pyStripList (l : List Char) : List Char :=
  ((l.dropWhile pyIsSpace).reverse.dropWhile pyIsSpace).reverse

/-- Model of Python `str.strip()`. -/
def pyStrip (s : String) : String :=
  String.mk (pyStripList s.data)

/-- Python `needle in hay` for strings: substring test. -/
def pySubstring (needle hay : List Char) : Bool :=
  (List.range (hay.length + 1)).any fun i => needle.isPrefixOf (hay.drop i)

/-!
### difflib.SequenceMatcher

`merge_similar_items` scores similarity with
`SequenceMatcher(None, a, b).ratio()`.  The definitions below translate the
CPython implementation (`difflib.py`): `__chain_b` (index table plus the
autojunk "popular element" purge), `find_longest_match` (dynamic programming
pass followed by the four extension loops), the `get_matching_blocks`
recursion, and `ratio`.  Because the constructor is called with
`isjunk=None`, the junk set `bjunk` is empty, so `isbjunk` is the constant
`false` predicate; it is kept as an explicit argument to mirror the source.
-/

/-- Table entry `b2j[c]` before any purge: ascending list of the indices of `c` in `b`. -/
def idxsOf (b : List Char) (c : Char) : List Nat :=
  (List.range b.length).filter fun j => b.getD j ' ' = c

/-- Autojunk purge of `__chain_b`: with `isjunk=None`, an element is dropped
from `b2j` iff `len(b) >= 200` and it occurs more than `len(b) // 100 + 1`
times in `b`. -/
def isPopular (b : List Char) (c : Char) : Bool :=
  200 ≤ b.length ∧ b.length / 100 + 1 < b.count c

/-- Lookup `b2j.get(c, [])` after the autojunk purge. -/
def b2jGet (b : List Char) (c : Char) : List Nat :=
  if isPopular b c then [] else idxsOf b c

/-- One iteration `i` of the outer loop of `find_longest_match`: fold over
`b2j.get(a[i])` restricted to `[blo, bhi)`, building `newj2len` and updating
the best match.  `st = (j2len of the previous iteration, (besti, bestj,
bestsize))`.  Python computes `besti = i - k + 1`; the DP invariant
`k ≤ i + 1` makes the truncated subtraction `i + 1 - k` identical. -/
def flmInner (i : Nat) (st : List (Nat × Nat) × (Nat × Nat × Nat)) (js : List Nat) :
    List (Nat × Nat) × (Nat × Nat × Nat) :=
  js.foldl
    (fun acc j =>
      let k := (if j = 0 then 0 else (List.lookup (j - 1) st.1).getD 0) + 1
      let best := acc.2
      (acc.1 ++ [(j, k)], if best.2.2 < k then (i + 1 - k, j + 1 - k, k) else best))
    ([], st.2)

/-- The dynamic-programming pass of `find_longest_match` over
`i ∈ range(alo, ahi)`. -/
def flmScan (a b : List Char) (alo ahi blo bhi : Nat) : Nat × Nat × Nat :=
  ((List.range' alo (ahi - alo)).foldl
    (fun st i =>
      let js := (b2jGet b (a.getD i ' ')).filter fun j => blo ≤ j ∧ j < bhi
      flmInner i st js)
    ([], (alo, blo, 0))).2

/-- One of the two left extension loops of `find_longest_match`:
`while besti > alo and bestj > blo and P (besti-1) (bestj-1): ...`.
Structural recursion on `besti` (the loop decrements it). -/
def extLeft (P : Nat → Nat → Bool) (alo blo : Nat) :
    Nat → Nat → Nat → Nat × Nat × Nat
  | 0, bestj, bestsize => (0, bestj, bestsize)
  | besti + 1, bestj, bestsize =>
    if alo < besti + 1 ∧ blo < bestj ∧ P besti (bestj - 1) then
      extLeft P alo blo besti (bestj - 1) (bestsize + 1)
    else (besti + 1, bestj, bestsize)

/-- One of the two right extension loops, recursing on the remaining room
`ahi - (besti + bestsize)`; the guard `bestj+bestsize < bhi` and the
predicate are checked each step, exactly as in
`while besti+bestsize < ahi and bestj+bestsize < bhi and P ...`. -/
def extRight (P : Nat → Nat → Bool) (bhi besti bestj : Nat) :
    Nat → Nat → Nat
  | 0, bestsize => bestsize
  | room + 1, bestsize =>
    if bestj + bestsize < bhi ∧ P (besti + bestsize) (bestj + bestsize) then
      extRight P bhi besti bestj room (bestsize + 1)
    else bestsize

/-- Full `find_longest_match(alo, ahi, blo, bhi)` with junk predicate `isbjunk`
(the constant `false` in this repository, since `isjunk=None`). -/
def findLongestMatch (a b : List Char) (isbjunk : Char → Bool)
    (alo ahi blo bhi : Nat) : Nat × Nat × Nat :=
  let best := flmScan a b alo ahi blo bhi
  let eqAt : Nat → Nat → Bool := fun ai bj => a.getD ai ' ' = b.getD bj ' '
  let pNon : Nat → Nat → Bool := fun ai bj => !isbjunk (b.getD bj ' ') && eqAt ai bj
  let pJunk : Nat → Nat → Bool := fun ai bj => isbjunk (b.getD bj ' ') && eqAt ai bj
  let best := extLeft pNon alo blo best.1 best.2.1 best.2.2
  let best := (best.1, best.2.1, extRight pNon bhi best.1 best.2.1
    (ahi - (best.1 + best.2.2)) best.2.2)
  let best := extLeft pJunk alo blo best.1 best.2.1 best.2.2
  (best.1, best.2.1, extRight pJunk bhi best.1 best.2.1
    (ahi - (best.1 + best.2.2)) best.2.2)

/-- Sum of the sizes of the blocks recorded by `get_matching_blocks` on the
range `a[alo:ahi]` / `b[blo:bhi]` (the later sort/collapse steps and the
terminal dummy block do not change this sum).  The queue loop of the source
is written as the recursion it implements; `fuel` only bounds the recursion
depth and is initialised (in `matchingSum`) to `len a + len b + 1`, which
exceeds the depth of any run: every recursive call strictly shrinks the
interval on both sides. -/
def matchingSumF (a b : List Char) (isbjunk : Char → Bool) :
    Nat → Nat → Nat → Nat → Nat → Nat
  | 0, _, _, _, _ => 0
  | fuel + 1, alo, ahi, blo, bhi =>
    let m := findLongestMatch a b isbjunk alo ahi blo bhi
    if m.2.2 = 0 then 0
    else
      (if alo < m.1 ∧ blo < m.2.1 then
        matchingSumF a b isbjunk fuel alo m.1 blo m.2.1 else 0)
      + m.2.2 +
      (if m.1 + m.2.2 < ahi ∧ m.2.1 + m.2.2 < bhi then
        matchingSumF a b isbjunk fuel (m.1 + m.2.2) ahi (m.2.1 + m.2.2) bhi else 0)

/-- Total number `M` of matched elements between `a` and `b`. -/
def matchingSum (a b : List Char) : Nat :=
  matchingSumF a b (fun _ => false) (a.length + b.length + 1) 0 a.length 0 b.length

/-- Ratio `SequenceMatcher(None, a, b).ratio()`: `2M/T`, and 1.0 when both
sequences are empty (`_calculate_ratio`). -/
def seqRatioQ (a b : List Char) : ℚ :=
  if a.length + b.length = 0 then 1
  else (2 * matchingSum a b : ℚ) / (a.length + b.length : ℚ)

/-- Ratio `SequenceMatcher(None, x, y).ratio()` on strings. -/
def strRatioQ (x y : String) : ℚ :=
  seqRatioQ x.data y.data

/-!
### Data model (`src/utils/data_models.py`)

`QAItem` holds the post-validation state of the pydantic model.  `id`
carries the UUID assigned at creation and `fecha_creacion` the ISO
timestamp, both opaque strings to the unifier.  `metadatos` values are kept
in their `str(value)` form (the exporter is the only consumer and coerces
them with `str`).  `confianza` is the float modelled as `ℚ`.
-/

structure QAItem where
  id : String
  pregunta : String
  respuesta : String
  categoria : String
  nivel : String
  tema : String
  fuentes : List String
  palabras_clave : List String
  idioma : String
  confianza : ℚ
  metadatos : List (String × String)
  fecha_creacion : String
deriving Repr, DecidableEq

def defaultQAItem : QAItem :=
  ⟨"", "", "", "general", "intermedio", "", [], [], "es", 4/5, [], ""⟩

instance : Inhabited QAItem := ⟨defaultQAItem⟩

/-- The `Literal` values admitted for `nivel`. -/
def nivelesPermitidos : List String := ["básico", "intermedio", "avanzado"]

/-- Construction of a `QAItem`, modelling pydantic v1 validation of the
model: the `Field` constraints (`min_length` on the raw `pregunta` and
`respuesta`, the `Literal` set for `nivel`, `ge=0.0, le=1.0` for
`confianza`) run first on the raw inputs, then the class validators
`clean_text` (strip `pregunta`/`respuesta`) and `lowercase_category_theme`
(lower + strip `categoria`/`tema`).  pydantic collects all field errors
before raising; this embedding stops at the first, which is irrelevant to
whether construction succeeds and to the stored values. -/
def mkQAItem (id pregunta respuesta categoria nivel tema : String)
    (fuentes palabras_clave : List String) (idioma : String) (confianza : ℚ)
    (metadatos : List (String × String)) (fecha_creacion : String) :
    Except String QAItem :=
  if pregunta.length < 10 then .error "pregunta: ensure this value has at least 10 characters"
  else if respuesta.length < 20 then .error "respuesta: ensure this value has at least 20 characters"
  else if ¬ nivel ∈ nivelesPermitidos then .error "nivel: unexpected value"
  else if ¬ (0 ≤ confianza ∧ confianza ≤ 1) then .error "confianza: out of range"
  else .ok
    { id := id
      pregunta := pyStrip pregunta
      respuesta := pyStrip respuesta
      categoria := pyStrip (pyLower categoria)
      nivel := nivel
      tema := pyStrip (pyLower tema)
      fuentes := fuentes
      palabras_clave := palabras_clave
      idioma := idioma
      confianza := confianza
      metadatos := metadatos
      fecha_creacion := fecha_creacion }

/-- The `Literal` values admitted for `QABatch.origen`. -/
def origenesPermitidos : List String := ["prompt", "documento", "manual", "api"]

structure QABatch where
  id : String
  items : List QAItem
  origen : String
  prompt_original : Option String
  documento_fuente : Option String
  parametros_generacion : List (String × String)
  estadisticas : List (String × String)
  fecha_creacion : String
deriving Repr, DecidableEq

/-!
### QADataUnifier (`src/unifiers/data_unifier_simple.py`)
-/

/-- The mutable state of a `QADataUnifier`: the ingested batches and the
unified working collection. -/
structure UnifierState where
  batches : List QABatch
  unified_items : List QAItem
deriving Repr, DecidableEq

/-- Source `QADataUnifier.add_batch`. -/
def add_batch (st : UnifierState) (b : QABatch) : UnifierState :=
  { batches := st.batches ++ [b], unified_items := st.unified_items ++ b.items }

/-- Source `QADataUnifier.add_batches`. -/
def add_batches (st : UnifierState) (bs : List QABatch) : UnifierState :=
  bs.foldl add_batch st

/-- The duplicate test of `merge_similar_items`:
`question_sim > similarity_threshold or answer_sim > similarity_threshold`
where each score is `SequenceMatcher(None, item.x.lower().strip(),
existing_item.x.lower().strip()).ratio()`. -/
def isSimilar (t : ℚ) (item existing : QAItem) : Bool :=
  decide (t < strRatioQ (pyStrip (pyLower item.pregunta)) (pyStrip (pyLower existing.pregunta)))
    || decide (t < strRatioQ (pyStrip (pyLower item.respuesta)) (pyStrip (pyLower existing.respuesta)))

/-- The merge body of `merge_similar_items` (lines 66-78), applied to the
existing (surviving) record.  `list(set(xs))` has unspecified order in
Python, so the source/keyword unions are modelled as `dedup` of the
concatenation (first occurrence kept); the theorems below use only
order-insensitive facts about them.  The float literal `1.2` is the
rational `6/5`: for the answer lengths compared anywhere in this
development the double computation `len * 1.2` and the exact rational agree
on every comparison. -/
def mergeInto (existing item : QAItem) : QAItem :=
  { existing with
    fuentes := (existing.fuentes ++ item.fuentes).dedup
    palabras_clave := (existing.palabras_clave ++ item.palabras_clave).dedup
    respuesta :=
      if (existing.respuesta.length : ℚ) * (6/5) < (item.respuesta.length : ℚ) then
        item.respuesta
      else existing.respuesta
    confianza := (existing.confianza + item.confianza) / 2 }

/-- One iteration of the outer loop of `merge_similar_items`: scan the
output list built so far for the first record similar to `item`; merge into
it in place if found, otherwise append `item`. -/
def mergeSimilarStep (t : ℚ) (acc : List QAItem × Nat) (item : QAItem) :
    List QAItem × Nat :=
  match List.findIdx? (isSimilar t item) acc.1 with
  | some idx => (acc.1.set idx (mergeInto (acc.1.getD idx defaultQAItem) item), acc.2 + 1)
  | none => (acc.1 ++ [item], acc.2)

/-- Source `QADataUnifier.merge_similar_items` on the working collection: returns
the new collection and the merge count. -/
def merge_similar_items (t : ℚ) (items : List QAItem) : List QAItem × Nat :=
  items.foldl (mergeSimilarStep t) ([], 0)

/-- A value in the `filters` dict handed to `filter_items` (`Dict[str,
Any]` in the source; these are the shapes the callers pass). -/
inductive FilterVal where
  | fvStr (s : String)
  | fvNum (q : ℚ)
  | fvList (l : List String)
deriving Repr, DecidableEq

/-- Python truthiness of a filter value (`filters[k]` in boolean context). -/
def filterTruthy : FilterVal → Bool
  | .fvStr s => !s.isEmpty
  | .fvNum q => decide (q ≠ 0)
  | .fvList l => !l.isEmpty

/-- The `categoria` pass of `filter_items` (`if "categoria" in filters and
filters["categoria"]: ...`).  A truthy value of the wrong type would raise
in Python (`.lower()` on a non-string); that branch leaves the list
unchanged here and is outside every theorem below — likewise in the other
three passes. -/
def applyCat (filters : List (String × FilterVal)) (items : List QAItem) :
    List QAItem :=
  match List.lookup "categoria" filters with
  | some v =>
    if filterTruthy v then
      match v with
      | .fvStr s => items.filter fun it => pyLower it.categoria == pyLower s
      | _ => items
    else items
  | none => items

/-- The `nivel` pass of `filter_items`. -/
def applyNivel (filters : List (String × FilterVal)) (items : List QAItem) :
    List QAItem :=
  match List.lookup "nivel" filters with
  | some v =>
    if filterTruthy v then
      match v with
      | .fvStr s => items.filter fun it => pyLower it.nivel == pyLower s
      | _ => items
    else items
  | none => items

/-- The `tema` pass of `filter_items` (substring match). -/
def applyTema (filters : List (String × FilterVal)) (items : List QAItem) :
    List QAItem :=
  match List.lookup "tema" filters with
  | some v =>
    if filterTruthy v then
      match v with
      | .fvStr s =>
        items.filter fun it => pySubstring (pyLower s).data (pyLower it.tema).data
      | _ => items
    else items
  | none => items

/-- The `confianza_minima` pass of `filter_items` (inclusive lower bound). -/
def applyConf (filters : List (String × FilterVal)) (items : List QAItem) :
    List QAItem :=
  match List.lookup "confianza_minima" filters with
  | some v =>
    if filterTruthy v then
      match v with
      | .fvNum q => items.filter fun it => decide (q ≤ it.confianza)
      | _ => items
    else items
  | none => items

/-- Source `QADataUnifier.filter_items`: the four recognized keys applied in
sequence to a copy of the working collection, each only when present with a
truthy value; any other key in the dict is never consulted. -/
def filter_items (st : UnifierState) (filters : List (String × FilterVal)) :
    List QAItem :=
  applyConf filters (applyTema filters (applyNivel filters (applyCat filters
    st.unified_items)))

/-- The `categoria` constraint as a predicate (`true` when inactive). -/
def catPred (filters : List (String × FilterVal)) (it : QAItem) : Bool :=
  match List.lookup "categoria" filters with
  | some v =>
    if filterTruthy v then
      match v with
      | .fvStr s => pyLower it.categoria == pyLower s
      | _ => true
    else true
  | none => true

/-- The `nivel` constraint as a predicate. -/
def nivelPred (filters : List (String × FilterVal)) (it : QAItem) : Bool :=
  match List.lookup "nivel" filters with
  | some v =>
    if filterTruthy v then
      match v with
      | .fvStr s => pyLower it.nivel == pyLower s
      | _ => true
    else true
  | none => true

/-- The `tema` constraint as a predicate. -/
def temaPred (filters : List (String × FilterVal)) (it : QAItem) : Bool :=
  match List.lookup "tema" filters with
  | some v =>
    if filterTruthy v then
      match v with
      | .fvStr s => pySubstring (pyLower s).data (pyLower it.tema).data
      | _ => true
    else true
  | none => true

/-- The `confianza_minima` constraint as a predicate. -/
def confPred (filters : List (String × FilterVal)) (it : QAItem) : Bool :=
  match List.lookup "confianza_minima" filters with
  | some v =>
    if filterTruthy v then
      match v with
      | .fvNum q => decide (q ≤ it.confianza)
      | _ => true
    else true
  | none => true

/-- Conjunction of the four constraints: a record survives `filter_items`
iff it satisfies every active constraint. -/
def activePred (filters : List (String × FilterVal)) (it : QAItem) : Bool :=
  ((catPred filters it && nivelPred filters it) && temaPred filters it)
    && confPred filters it

/-- A value of the statistics dict returned by `get_statistics`. -/
inductive StatVal where
  | nat (n : Nat)
  | q (x : ℚ)
  | table (t : List (String × Nat))
deriving Repr, DecidableEq

/-- Update `d[k] = d.get(k, 0) + 1` on an insertion-ordered dict. -/
def bump (tbl : List (String × Nat)) (k : String) : List (String × Nat) :=
  if tbl.any fun p => p.1 == k then
    tbl.map fun p => if p.1 == k then (p.1, p.2 + 1) else p
  else tbl ++ [(k, 1)]

/-- Update `d[k] = d.get(k, 0) + n` on an insertion-ordered dict. -/
def bumpBy (tbl : List (String × Nat)) (k : String) (n : Nat) : List (String × Nat) :=
  if tbl.any fun p => p.1 == k then
    tbl.map fun p => if p.1 == k then (p.1, p.2 + n) else p
  else tbl ++ [(k, n)]

/-- Source `QADataUnifier.get_statistics`, the result dict as an insertion-ordered
association list. -/
def getStatistics (st : UnifierState) : List (String × StatVal) :=
  if st.unified_items.isEmpty then [("total", .nat 0)]
  else
    let categorias := st.unified_items.foldl (fun t it => bump t it.categoria) []
    let niveles := st.unified_items.foldl (fun t it => bump t it.nivel) []
    let temas := st.unified_items.foldl
      (fun t it => if it.tema.isEmpty then t else bump t it.tema) []
    let idiomas := st.unified_items.foldl (fun t it => bump t it.idioma) []
    let origenes := st.batches.foldl (fun t b => bumpBy t b.origen b.items.length) []
    [("total_items", .nat st.unified_items.length),
     ("total_batches", .nat st.batches.length),
     ("distribucion_categorias", .table categorias),
     ("distribucion_niveles", .table niveles),
     ("distribucion_temas",
       .table ((List.insertionSort (fun x y => y.2 ≤ x.2) temas).take 10)),
     ("distribucion_idiomas", .table idiomas),
     ("distribucion_origenes", .table origenes),
     ("confianza_promedio",
       .q ((st.unified_items.map (·.confianza)).sum / st.unified_items.length))]

/-!
### QAExporter
-/

/-- A cell value of an export row (`prepare_export_data` produces strings
and the `confianza` float). -/
inductive CellVal where
  | cs (s : String)
  | cq (x : ℚ)
deriving Repr, DecidableEq

/-- Join `"|".join(xs) if xs else ""` — identical to plain `"|".join(xs)`. -/
def joinPipe (xs : List String) : String :=
  String.intercalate "|" xs

/-- Source `QAExporter.prepare_export_data`: one insertion-ordered dict per item,
with the `meta_`-prefixed extra columns when requested. -/
def prepare_export_data (items : List QAItem) (include_metadata : Bool) :
    List (List (String × CellVal)) :=
  items.map fun item =>
    let row : List (String × CellVal) :=
      [("id", .cs item.id),
       ("pregunta", .cs item.pregunta),
       ("respuesta", .cs item.respuesta),
       ("categoria", .cs item.categoria),
       ("nivel", .cs item.nivel),
       ("tema", .cs item.tema),
       ("idioma", .cs item.idioma),
       ("confianza", .cq item.confianza),
       ("fecha_creacion", .cs item.fecha_creacion),
       ("fuentes", .cs (joinPipe item.fuentes)),
       ("palabras_clave", .cs (joinPipe item.palabras_clave))]
    if include_metadata && !item.metadatos.isEmpty then
      row ++ item.metadatos.map fun p => ("meta_" ++ p.1, CellVal.cs p.2)
    else row

/-- The CSV file written by `export_to_csv`: the header line and one row of
cells per record (`csv.DictWriter` fills columns missing from a row with
the empty string). -/
structure CsvFile where
  header : List String
  rows : List (List CellVal)
deriving Repr, DecidableEq

/-- Source `QAExporter.export_to_csv`: `none` models the early return that writes
no file ("No hay datos para exportar"); otherwise the written file.  The
column set is the union of all row keys (a Python `set`), sorted. -/
def export_to_csv (items : List QAItem) (include_metadata : Bool) :
    Option CsvFile :=
  let data := prepare_export_data items include_metadata
  if data.isEmpty then none
  else
    let allColumns := (data.flatMap fun row => row.map Prod.fst).dedup
    let columns := List.insertionSort (· ≤ ·) allColumns
    some
      { header := columns
        rows := data.map fun row =>
          columns.map fun c => (List.lookup c row).getD (.cs "") }

/-- The JSON document written by `export_to_json`. -/
structure JsonExport where
  total_items : Nat
  export_date : String
  format_version : String
  qa_items : List (List (String × CellVal))
deriving Repr, DecidableEq

/-- Source `QAExporter.export_to_json` (always writes, also for zero items). -/
def export_to_json (items : List QAItem) (include_metadata : Bool)
    (now : String) : JsonExport :=
  { total_items := (prepare_export_data items include_metadata).length
    export_date := now
    format_version := "1.0"
    qa_items := prepare_export_data items include_metadata }

/-- Source `QAExporter.__init__`: the advertised format list. -/
def supported_formats : List String := ["csv", "json", "xlsx", "yaml"]

/-- Model of `ExportConfig` (`formato` is a `Literal["csv", "json", "xlsx", "yaml"]`
in the pydantic model; it is kept as the raw string here and every theorem
quantifying over it holds for arbitrary strings). -/
structure ExportConfig where
  formato : String
  incluir_metadatos : Bool
  filtros : List (String × FilterVal)
  ruta_salida : Option String
  nombre_archivo : Option String
deriving Repr, DecidableEq

/-- What `QAExporter.export` wrote. -/
inductive ExportPayload where
  | csvOut (f : Option CsvFile)
  | jsonOut (f : JsonExport)
deriving Repr, DecidableEq

/-- Source `QAExporter.export`.  `outputDir` stands for `settings.OUTPUT_DIR`,
`now` for `datetime.now()` (both ambient inputs of the function).  The
result is the full path written and the payload; the unsupported-format
branch raises `ValueError(f"Formato no soportado: {config.formato}")`. -/
def exportData (outputDir now : String) (config : ExportConfig)
    (items : List QAItem) : Except String (String × ExportPayload) :=
  let output_path := match config.ruta_salida with
    | some p => p
    | none => outputDir
  let filename := match config.nombre_archivo with
    | some n => n
    | none => "qa_export_" ++ now ++ "." ++ config.formato
  let filename := if filename.endsWith ("." ++ config.formato) then filename
    else filename ++ "." ++ config.formato
  let full_path := output_path ++ "/" ++ filename
  if config.formato = "csv" then
    .ok (full_path, .csvOut (export_to_csv items config.incluir_metadatos))
  else if config.formato = "json" then
    .ok (full_path, .jsonOut (export_to_json items config.incluir_metadatos now))
  else .error ("Formato no soportado: " ++ config.formato)

/-!
### QADataManager
-/

/-- The runtime shape of the argument of `QADataManager.add_data`
(`Union[QABatch, List[QABatch], List[QAItem]]` plus anything else a caller
may pass, dispatched by `isinstance`).  A list may mix batches and items,
which is exactly the shape at issue in claim C4. -/
inductive AddDataInput where
  | single (b : QABatch)
  | listInput (xs : List (QABatch ⊕ QAItem))
  | other
deriving Repr

def isBatchEl : QABatch ⊕ QAItem → Bool
  | .inl _ => true
  | .inr _ => false

def isItemEl : QABatch ⊕ QAItem → Bool
  | .inl _ => false
  | .inr _ => true

def getBatchEl : QABatch ⊕ QAItem → Option QABatch
  | .inl b => some b
  | .inr _ => none

def getItemEl : QABatch ⊕ QAItem → Option QAItem
  | .inl _ => none
  | .inr i => some i

/-- The synthetic batch `add_data` builds around a bare item list
(`origen="manual"`, `parametros_generacion={"added_manually": True}`);
`freshId` and `freshDate` stand for the uuid/timestamp default factories. -/
def tempBatch (freshId freshDate : String) (items : List QAItem) : QABatch :=
  { id := freshId
    items := items
    origen := "manual"
    prompt_original := none
    documento_fuente := none
    parametros_generacion := [("added_manually", "True")]
    estadisticas := []
    fecha_creacion := freshDate }

/-- Source `QADataManager.add_data`.  Mirrors the `isinstance` dispatch of the
source: a single batch, a list of only batches, a list of only items — and,
crucially, a list that is neither (e.g. batches mixed with items) falls
through the inner `if/elif` with no `else`, returning with the state
untouched and no error.  Only a non-batch, non-list argument reaches
`raise ValueError`. -/
def add_data (freshId freshDate : String) (st : UnifierState) :
    AddDataInput → Except String UnifierState
  | .single b => .ok (add_batch st b)
  | .listInput xs =>
    if xs.all isBatchEl then .ok (add_batches st (xs.filterMap getBatchEl))
    else if xs.all isItemEl then
      .ok (add_batch st (tempBatch freshId freshDate (xs.filterMap getItemEl)))
    else .ok st
  | .other => .error "Tipo de datos no soportado"

/-!
### Specification-side definitions

Used only to state claims whose wording has no counterpart in the source.
-/

/-- Modelled from the spec (§4.3): the `keywords` filter semantics the spec
ascribes to the Filter Engine — a record matches when any of its
question/answer text contains any of the terms, case-insensitively. -/
def specKeywordMatches (terms : List String) (it : QAItem) : Bool :=
  terms.any fun term =>
    pySubstring (pyLower term).data (pyLower it.pregunta).data
      || pySubstring (pyLower term).data (pyLower it.respuesta).data

/-!
### Concrete fixtures for witnesses and counterexamples
-/

/-- Existing record for the C1 example: its answer is exactly 20 characters
long. -/
def itemExisting20 : QAItem :=
  { id := "e20"
    pregunta := "¿qué es el lenguaje python?"
    respuesta := "respuesta corta 20ch"
    categoria := "general"
    nivel := "intermedio"
    tema := "python"
    fuentes := ["python.org"]
    palabras_clave := ["python"]
    idioma := "es"
    confianza := 3/5
    metadatos := []
    fecha_creacion := "2024-01-01T00:00:00" }

/-- Incoming duplicate (same question) whose answer is exactly 25
characters long. -/
def itemIncoming25 : QAItem :=
  { itemExisting20 with
    id := "i25"
    respuesta := "una respuesta de 25 chars"
    fuentes := ["docs.python.org"]
    palabras_clave := ["lenguaje"]
    confianza := 1 }

/-- Incoming duplicate whose answer is exactly 30 characters long. -/
def itemIncoming30 : QAItem :=
  { itemIncoming25 with
    id := "i30"
    respuesta := "una respuesta larga de 30 char" }

/-- Incoming duplicate whose answer is exactly 24 characters long
(24 = 20 * 1.2, not strictly above it). -/
def itemIncoming24 : QAItem :=
  { itemIncoming25 with
    id := "i24"
    respuesta := "respuesta de 24 caracts." }

/-- Record used by the C2 counterexample: neither its question nor its
answer mentions the search term. -/
def itemNoKeyword : QAItem :=
  { id := "nk"
    pregunta := "¿cómo funciona la fotosíntesis?"
    respuesta := "las plantas convierten la luz solar en energía química."
    categoria := "biología"
    nivel := "básico"
    tema := "plantas"
    fuentes := []
    palabras_clave := ["plantas"]
    idioma := "es"
    confianza := 9/10
    metadatos := []
    fecha_creacion := "2024-01-02T00:00:00" }

/-- A second distinct record (statistics witness, filter fixtures). -/
def itemSecond : QAItem :=
  { id := "s2"
    pregunta := "¿qué estudia la astronomía moderna?"
    respuesta := "estudia los cuerpos celestes y el universo observable."
    categoria := "ciencia"
    nivel := "avanzado"
    tema := "espacio"
    fuentes := ["wiki"]
    palabras_clave := ["espacio"]
    idioma := "es"
    confianza := 7/10
    metadatos := [("autor", "test")]
    fecha_creacion := "2024-01-03T00:00:00" }

/-- A concrete batch holding the two records above. -/
def batchFix : QABatch :=
  { id := "b1"
    items := [itemNoKeyword, itemSecond]
    origen := "prompt"
    prompt_original := some "tema ciencia"
    documento_fuente := none
    parametros_generacion := [("modelo", "test")]
    estadisticas := []
    fecha_creacion := "2024-01-02T00:00:00" }

/-- Unifier state with one ingested batch (nonempty collection). -/
def stFix : UnifierState :=
  { batches := [batchFix], unified_items := [itemNoKeyword, itemSecond] }

/-- The empty unifier state (fresh `QADataUnifier()`). -/
def stEmpty : UnifierState := { batches := [], unified_items := [] }

/-- The item produced by the C7 construction (evaluated form; the
confidence 0.9 is written `mkRat 9 10` so that the range check evaluates by
kernel reduction). -/
def c7item : QAItem :=
  (mkQAItem "id7" "  ¿Qué es la FÍSICA cuántica?  "
    "La física cuántica estudia lo diminuto." "  CIENCIA  " "básico"
    "  Física Cuántica " [] [] "ES" (mkRat 9 10) [] "2024-02-01").toOption.getD
    defaultQAItem

/-- The item produced by the C10 construction (evaluated form): the raw
question reaches the 10-character minimum only through its padding. -/
def c10item : QAItem :=
  (mkQAItem "id10" "  ¿Qué?   " "Una respuesta válida de sobra."
    "general" "intermedio" "" [] [] "es" (mkRat 4 5) [] "2024-02-02").toOption.getD
    defaultQAItem

/-- The CSV file written for `[itemSecond, itemNoKeyword]` with metadata
(the two rows have different key sets, so the column union is proper). -/
def c8file : CsvFile :=
  (export_to_csv [itemSecond, itemNoKeyword] true).getD ⟨[], []⟩

/-- Export request in the advertised but unimplemented `xlsx` format. -/
def cfgXlsx : ExportConfig :=
  { formato := "xlsx"
    incluir_metadatos := true
    filtros := []
    ruta_salida := none
    nombre_archivo := some "salida" }

/-!
### Helper lemmas
-/

/-- On a nonempty pair of sequences the ratio is the rational `2M/T` in
`mkRat` form (which, unlike `Rat.div`, evaluates by `decide`). -/
theorem seqRatioQ_eq_mkRat (a b : List Char) (h : a.length + b.length ≠ 0) :
    seqRatioQ a b = mkRat (2 * matchingSum a b : Int) (a.length + b.length) := by
  unfold seqRatioQ
  rw [if_neg h, Rat.mkRat_eq_div]
  push_cast
  ring

/-- The answer-replacement test of `mergeInto` in integer form. -/
theorem sixFifths_lt_iff (e i : Nat) :
    ((e : ℚ) * (6/5) < (i : ℚ)) ↔ 6 * e < 5 * i := by
  have h5 : (0:ℚ) < 5 := by norm_num
  rw [show ((e:ℚ) * (6/5)) = (6*e : ℚ)/5 by ring, div_lt_iff₀ h5]
  rw [show ((i:ℚ) * 5) = ((5 * i : Nat) : ℚ) by push_cast; ring,
    show ((6:ℚ) * e) = ((6 * e : Nat) : ℚ) by push_cast; ring]
  exact Nat.cast_lt


/-!
### Claims
-/

/-- C1 (amended): when `merge_similar_items` detects the incoming record as
a duplicate of the first sufficiently similar record already in the output
list, the surviving existing record is updated in place (and the count
incremented): its sources and keywords become the duplicate-free union of
both records, its answer is replaced by the incoming answer exactly when
the incoming length strictly exceeds 1.2 times the existing length, and its
confidence becomes the arithmetic mean of the two confidences.  (The
25-character example given by the claim is wrong: 25 > 20 * 1.2 = 24, so a
25-character incoming answer does replace a 20-character existing one; see
`c1_counterexample`.) -/
theorem c1_merge_rule (t : ℚ) (merged : List QAItem) (cnt : Nat)
    (item existing : QAItem) (idx : Nat)
    (hfind : List.findIdx? (isSimilar t item) merged = some idx)
    (hget : merged[idx]? = some existing) :
    mergeSimilarStep t (merged, cnt) item
      = (merged.set idx (mergeInto existing item), cnt + 1)
    ∧ (∀ s, s ∈ (mergeInto existing item).fuentes
        ↔ s ∈ existing.fuentes ∨ s ∈ item.fuentes)
    ∧ (mergeInto existing item).fuentes.Nodup
    ∧ (∀ s, s ∈ (mergeInto existing item).palabras_clave
        ↔ s ∈ existing.palabras_clave ∨ s ∈ item.palabras_clave)
    ∧ (mergeInto existing item).palabras_clave.Nodup
    ∧ ((mergeInto existing item).respuesta = item.respuesta
        ↔ 6 * existing.respuesta.length < 5 * item.respuesta.length
          ∨ item.respuesta = existing.respuesta)
    ∧ (mergeInto existing item).confianza
        = (existing.confianza + item.confianza) / 2 := by
  have hgetD : merged.getD idx defaultQAItem = existing := by
    simp [List.getD_eq_getElem?_getD, hget]
  refine ⟨?_, ?_, ?_, ?_, ?_, ?_, ?_⟩
  · simp only [mergeSimilarStep, hfind, hgetD]
  · intro s; simp [mergeInto, List.mem_dedup, List.mem_append]
  · simp [mergeInto, List.nodup_dedup]
  · intro s; simp [mergeInto, List.mem_dedup, List.mem_append]
  · simp [mergeInto, List.nodup_dedup]
  · simp only [mergeInto]
    rw [← sixFifths_lt_iff]
    split
    · next h => simpa using Or.inl h
    · next h =>
      constructor
      · intro he; exact Or.inr he.symm
      · rintro (hlt | he)
        · exact absurd hlt h
        · exact he.symm
  · rfl

set_option maxRecDepth 4000 in
/-- C1 witness: a concrete duplicate pair (identical questions, threshold
0.8) on which the detected-duplicate hypotheses of `c1_merge_rule` hold by
computation. -/
theorem c1_witness :
    mergeSimilarStep (mkRat 4 5) ([itemExisting20], 0) itemIncoming25
      = ([mergeInto itemExisting20 itemIncoming25], 1)
    ∧ (mergeInto itemExisting20 itemIncoming25).confianza
      = (itemExisting20.confianza + itemIncoming25.confianza) / 2
    ∧ (∀ s, s ∈ (mergeInto itemExisting20 itemIncoming25).fuentes
        ↔ s ∈ itemExisting20.fuentes ∨ s ∈ itemIncoming25.fuentes) := by
  have hsim : isSimilar (mkRat 4 5) itemIncoming25 itemExisting20 = true := by
    have h1 : decide ((mkRat 4 5 : ℚ)
        < strRatioQ (pyStrip (pyLower itemIncoming25.pregunta))
          (pyStrip (pyLower itemExisting20.pregunta))) = true := by
      rw [strRatioQ, seqRatioQ_eq_mkRat _ _ (by decide)]
      decide
    rw [isSimilar, h1, Bool.true_or]
  have hfind : List.findIdx? (isSimilar (mkRat 4 5) itemIncoming25)
      [itemExisting20] = some 0 := by
    simp [List.findIdx?_cons, hsim]
  have h := c1_merge_rule (mkRat 4 5) [itemExisting20] 0 itemIncoming25
    itemExisting20 0 hfind rfl
  exact ⟨h.1, h.2.2.2.2.2.2, h.2.1⟩

set_option maxRecDepth 4000 in
/-- C1 counterexample: the claim asserts that a 25-character incoming
answer is kept out when the existing answer has 20 characters; in fact
`25 > 20 * 1.2 = 24`, so the code replaces the existing answer. -/
theorem c1_counterexample :
    List.findIdx? (isSimilar (mkRat 4 5) itemIncoming25) [itemExisting20] = some 0
    ∧ itemExisting20.respuesta.length = 20
    ∧ itemIncoming25.respuesta.length = 25
    ∧ (mergeInto itemExisting20 itemIncoming25).respuesta = itemIncoming25.respuesta
    ∧ itemIncoming25.respuesta ≠ itemExisting20.respuesta := by
  have hsim : isSimilar (mkRat 4 5) itemIncoming25 itemExisting20 = true := by
    have h1 : decide ((mkRat 4 5 : ℚ)
        < strRatioQ (pyStrip (pyLower itemIncoming25.pregunta))
          (pyStrip (pyLower itemExisting20.pregunta))) = true := by
      rw [strRatioQ, seqRatioQ_eq_mkRat _ _ (by decide)]
      decide
    rw [isSimilar, h1, Bool.true_or]
  refine ⟨by simp [List.findIdx?_cons, hsim], by decide, by decide, ?_, by decide⟩
  have hcond : (itemExisting20.respuesta.length : ℚ) * (6/5)
      < (itemIncoming25.respuesta.length : ℚ) := by
    rw [sixFifths_lt_iff]; decide
  simp only [mergeInto, if_pos hcond]

/-- C6: one merge pass never grows the collection, and the returned merge
count is exactly the drop in length. -/
theorem c6_merge_count (t : ℚ) (items : List QAItem) :
    (merge_similar_items t items).1.length ≤ items.length
    ∧ (merge_similar_items t items).2
      = items.length - (merge_similar_items t items).1.length := by
  have key : ∀ (l : List QAItem) (acc : List QAItem × Nat),
      (l.foldl (mergeSimilarStep t) acc).1.length + (l.foldl (mergeSimilarStep t) acc).2
        = acc.1.length + acc.2 + l.length := by
    intro l
    induction l with
    | nil => intro acc; simp
    | cons x xs ih =>
      intro acc
      rw [List.foldl_cons, ih]
      have hstep : (mergeSimilarStep t acc x).1.length + (mergeSimilarStep t acc x).2
          = acc.1.length + acc.2 + 1 := by
        unfold mergeSimilarStep
        cases h : List.findIdx? (isSimilar t x) acc.1 with
        | none => simp [Nat.add_assoc, Nat.add_comm 1]
        | some idx => simp [Nat.add_assoc]
      simp only [List.length_cons]
      omega
  have h := key items ([], 0)
  unfold merge_similar_items
  simp only [List.length_nil] at h
  omega

/-- The `categoria` pass is a `List.filter` by `catPred`. -/
theorem applyCat_eq_filter (fs : List (String × FilterVal)) (items : List QAItem) :
    applyCat fs items = items.filter (catPred fs) := by
  unfold applyCat catPred
  cases h : List.lookup "categoria" fs with
  | none => simp
  | some v =>
    cases v with
    | fvStr s =>
      cases ht : filterTruthy (FilterVal.fvStr s) <;> simp [ht]
    | fvNum q =>
      cases ht : filterTruthy (FilterVal.fvNum q) <;> simp [ht]
    | fvList l =>
      cases ht : filterTruthy (FilterVal.fvList l) <;> simp [ht]

/-- The `nivel` pass is a `List.filter` by `nivelPred`. -/
theorem applyNivel_eq_filter (fs : List (String × FilterVal)) (items : List QAItem) :
    applyNivel fs items = items.filter (nivelPred fs) := by
  unfold applyNivel nivelPred
  cases h : List.lookup "nivel" fs with
  | none => simp
  | some v =>
    cases v with
    | fvStr s =>
      cases ht : filterTruthy (FilterVal.fvStr s) <;> simp [ht]
    | fvNum q =>
      cases ht : filterTruthy (FilterVal.fvNum q) <;> simp [ht]
    | fvList l =>
      cases ht : filterTruthy (FilterVal.fvList l) <;> simp [ht]

/-- The `tema` pass is a `List.filter` by `temaPred`. -/
theorem applyTema_eq_filter (fs : List (String × FilterVal)) (items : List QAItem) :
    applyTema fs items = items.filter (temaPred fs) := by
  unfold applyTema temaPred
  cases h : List.lookup "tema" fs with
  | none => simp
  | some v =>
    cases v with
    | fvStr s =>
      cases ht : filterTruthy (FilterVal.fvStr s) <;> simp [ht]
    | fvNum q =>
      cases ht : filterTruthy (FilterVal.fvNum q) <;> simp [ht]
    | fvList l =>
      cases ht : filterTruthy (FilterVal.fvList l) <;> simp [ht]

/-- The `confianza_minima` pass is a `List.filter` by `confPred`. -/
theorem applyConf_eq_filter (fs : List (String × FilterVal)) (items : List QAItem) :
    applyConf fs items = items.filter (confPred fs) := by
  unfold applyConf confPred
  cases h : List.lookup "confianza_minima" fs with
  | none => simp
  | some v =>
    cases v with
    | fvStr s =>
      cases ht : filterTruthy (FilterVal.fvStr s) <;> simp [ht]
    | fvNum q =>
      cases ht : filterTruthy (FilterVal.fvNum q) <;> simp [ht]
    | fvList l =>
      cases ht : filterTruthy (FilterVal.fvList l) <;> simp [ht]

/-- C5: the empty filter mapping is the identity, and in general
`filter_items` is a single ordered `List.filter` by the conjunction of the
active constraints — hence an order-preserving subsequence of the
collection. -/
theorem c5_filter_identity_and_subsequence (st : UnifierState)
    (fs : List (String × FilterVal)) :
    filter_items st fs = st.unified_items.filter (activePred fs)
    ∧ (filter_items st fs).Sublist st.unified_items
    ∧ filter_items st [] = st.unified_items := by
  have hmain : filter_items st fs = st.unified_items.filter (activePred fs) := by
    unfold filter_items
    rw [applyCat_eq_filter, applyNivel_eq_filter, applyTema_eq_filter,
      applyConf_eq_filter, List.filter_filter, List.filter_filter,
      List.filter_filter]
    apply List.filter_congr
    intro a _
    simp only [activePred]
    cases catPred fs a <;> cases nivelPred fs a <;> cases temaPred fs a <;>
      cases confPred fs a <;> rfl
  refine ⟨hmain, ?_, ?_⟩
  · rw [hmain]; exact List.filter_sublist _
  · unfold filter_items applyCat applyNivel applyTema applyConf
    rfl

/-- C2 (amended): `filter_items` recognizes only `categoria`, `nivel`,
`tema` and `confianza_minima`; a `palabras_clave` entry is never consulted,
so a keywords-only filter returns the whole collection and a
`palabras_clave` entry in front of any filter dict changes nothing. -/
theorem c2_keywords_key_ignored (st : UnifierState) (ts : List String)
    (fs : List (String × FilterVal)) :
    filter_items st [("palabras_clave", FilterVal.fvList ts)] = st.unified_items
    ∧ filter_items st (("palabras_clave", FilterVal.fvList ts) :: fs)
      = filter_items st fs := by
  constructor
  · unfold filter_items applyCat applyNivel applyTema applyConf
    rfl
  · unfold filter_items applyCat applyNivel applyTema applyConf
    rfl

/-- C2 counterexample: a record whose question and answer contain none of
the search terms survives a keywords filter untouched, contradicting the
claim that the output contains exactly the matching records. -/
theorem c2_counterexample :
    specKeywordMatches ["zzz"] itemNoKeyword = false
    ∧ filter_items stFix [("palabras_clave", FilterVal.fvList ["zzz"])]
      = [itemNoKeyword, itemSecond] :=
  ⟨by decide, rfl⟩

/-- C3 (amended): on an empty collection `get_statistics` returns just
`{"total": 0}` — it never divides by zero, but it reports no
mean-confidence entry at all; on a nonempty collection the reported
`confianza_promedio` is the arithmetic mean of all confidences. -/
theorem c3_statistics (st : UnifierState) :
    (st.unified_items = [] → getStatistics st = [("total", StatVal.nat 0)])
    ∧ (st.unified_items ≠ [] →
        List.lookup "confianza_promedio" (getStatistics st)
          = some (.q ((st.unified_items.map (·.confianza)).sum
              / st.unified_items.length))) := by
  constructor
  · intro h
    unfold getStatistics
    rw [h]
    rfl
  · intro h
    have hne : st.unified_items.isEmpty = false := by
      cases hu : st.unified_items with
      | nil => exact absurd hu h
      | cons x xs => rfl
    unfold getStatistics
    rw [hne]
    rfl

/-- C3 witness: the two cases of `c3_statistics` at concrete states. -/
theorem c3_witness :
    List.lookup "confianza_promedio" (getStatistics stFix)
      = some (.q ((stFix.unified_items.map (·.confianza)).sum
          / stFix.unified_items.length))
    ∧ getStatistics stEmpty = [("total", StatVal.nat 0)] :=
  ⟨(c3_statistics stFix).2 (by decide), (c3_statistics stEmpty).1 rfl⟩

/-- C3 counterexample: on the empty collection the statistics dict is
exactly `{"total": 0}`; in particular it contains no mean-confidence entry,
so no mean confidence of `0` is reported. -/
theorem c3_counterexample :
    List.lookup "confianza_promedio" (getStatistics stEmpty) = none
    ∧ getStatistics stEmpty = [("total", StatVal.nat 0)] :=
  ⟨rfl, rfl⟩

/-- C4 (amended): `add_data` ingests the three documented shapes whole — a
single batch, a list of only batches, a nonempty list of only records (the
latter wrapped in a synthetic `manual` batch) — and raises for a non-batch,
non-list argument; but a list mixing batches and records is silently
ignored: no error is raised and the collection is left unchanged. -/
theorem c4_add_data (fid fd : String) (st : UnifierState) :
    (∀ b, add_data fid fd st (.single b) = .ok (add_batch st b))
    ∧ (∀ bs : List QABatch,
        add_data fid fd st (.listInput (bs.map Sum.inl))
          = .ok (add_batches st bs))
    ∧ (∀ its : List QAItem, its ≠ [] →
        add_data fid fd st (.listInput (its.map Sum.inr))
          = .ok (add_batch st (tempBatch fid fd its)))
    ∧ (∀ xs : List (QABatch ⊕ QAItem), xs.all isBatchEl = false →
        xs.all isItemEl = false →
        add_data fid fd st (.listInput xs) = .ok st)
    ∧ add_data fid fd st .other = .error "Tipo de datos no soportado" := by
  refine ⟨fun b => rfl, ?_, ?_, ?_, rfl⟩
  · intro bs
    have hall : (bs.map Sum.inl).all isBatchEl = true := by
      simp [List.all_map, isBatchEl, Function.comp]
    have hmap : ∀ l : List QABatch, (l.map Sum.inl).filterMap getBatchEl = l := by
      intro l
      induction l with
      | nil => rfl
      | cons b tl ih => simp [getBatchEl, ih]
    simp only [add_data]
    rw [if_pos hall, hmap]
  · intro its hne
    cases its with
    | nil => exact absurd rfl hne
    | cons x xs =>
      have hbatch : ¬ (((x :: xs).map Sum.inr).all isBatchEl = true) := by
        simp [isBatchEl]
      have hitem : ((x :: xs).map Sum.inr).all isItemEl = true := by
        simp [List.all_map, isItemEl, Function.comp]
      have hmap : ∀ l : List QAItem, (l.map Sum.inr).filterMap getItemEl = l := by
        intro l
        induction l with
        | nil => rfl
        | cons y tl ih => simp [getItemEl, ih]
      simp only [add_data]
      rw [if_neg hbatch, if_pos hitem, hmap]
  · intro xs h1 h2
    simp only [add_data]
    rw [if_neg (by simp [h1]), if_neg (by simp [h2])]

/-- C4 witness: `c4_add_data` at a concrete record list and at a concrete
mixed list. -/
theorem c4_witness :
    add_data "u1" "d1" stEmpty (.listInput [Sum.inr itemNoKeyword])
      = .ok (add_batch stEmpty (tempBatch "u1" "d1" [itemNoKeyword]))
    ∧ add_data "u1" "d1" stEmpty
        (.listInput [Sum.inl batchFix, Sum.inr itemNoKeyword]) = .ok stEmpty :=
  ⟨(c4_add_data "u1" "d1" stEmpty).2.2.1 [itemNoKeyword] (by simp),
   (c4_add_data "u1" "d1" stEmpty).2.2.2.1
     [Sum.inl batchFix, Sum.inr itemNoKeyword] rfl rfl⟩

/-- C4 counterexample: a list mixing a batch and a record — a shape outside
the three accepted ones — does not fail: `add_data` returns successfully
with the collection unchanged, instead of raising as the claim requires. -/
theorem c4_counterexample :
    add_data "u1" "d1" stFix
      (.listInput [Sum.inl batchFix, Sum.inr itemNoKeyword]) = .ok stFix :=
  rfl

/-- C7 (amended): on successful construction, `categoria` and `tema` are
stored lower-cased and trimmed and `pregunta`/`respuesta` trimmed, but
`nivel` is only validated against its enum (stored as given) and `idioma`
is stored entirely unchanged — so not all four classification tags are
normalized. -/
theorem c7_normalization (id preg resp cat niv tem : String)
    (fue pal : List String) (idi : String) (conf : ℚ)
    (meta : List (String × String)) (fecha : String) (it : QAItem)
    (h : mkQAItem id preg resp cat niv tem fue pal idi conf meta fecha = .ok it) :
    it.categoria = pyStrip (pyLower cat)
    ∧ it.tema = pyStrip (pyLower tem)
    ∧ it.pregunta = pyStrip preg
    ∧ it.respuesta = pyStrip resp
    ∧ it.nivel = niv
    ∧ niv ∈ nivelesPermitidos
    ∧ it.idioma = idi := by
  simp only [mkQAItem] at h
  split_ifs at h with h1 h2 h3 h4
  injection h with h
  subst h
  exact ⟨rfl, rfl, rfl, rfl, rfl, h3, rfl⟩

/-- C7 witness: a concrete construction with mixed-case padded tags. -/
theorem c7_witness :
    c7item.categoria = pyStrip (pyLower "  CIENCIA  ")
    ∧ c7item.tema = pyStrip (pyLower "  Física Cuántica ")
    ∧ c7item.nivel = "básico"
    ∧ c7item.idioma = "ES" :=
  have h := c7_normalization "id7" "  ¿Qué es la FÍSICA cuántica?  "
    "La física cuántica estudia lo diminuto." "  CIENCIA  " "básico"
    "  Física Cuántica " [] [] "ES" (mkRat 9 10) [] "2024-02-01" c7item rfl
  ⟨h.1, h.2.1, h.2.2.2.2.1, h.2.2.2.2.2.2⟩

/-- C7 counterexample: the language tag is not normalized — a record
constructed with `idioma = "ES"` stores `"ES"`, not the lower-cased
`"es"` the claim requires for all four tags. -/
theorem c7_counterexample :
    mkQAItem "id7" "  ¿Qué es la FÍSICA cuántica?  "
      "La física cuántica estudia lo diminuto." "  CIENCIA  " "básico"
      "  Física Cuántica " [] [] "ES" (mkRat 9 10) [] "2024-02-01" = .ok c7item
    ∧ c7item.idioma = "ES"
    ∧ pyStrip (pyLower c7item.idioma) = "es"
    ∧ c7item.idioma ≠ pyStrip (pyLower c7item.idioma) :=
  ⟨rfl, rfl, by decide, by decide⟩

/-- C10: the minimum-length checks run on the raw text before the trimming
validator, so a question whose raw length reaches 10 only through
surrounding whitespace is accepted and stored with fewer than 10
characters. -/
theorem c10_raw_length_validation :
    mkQAItem "id10" "  ¿Qué?   " "Una respuesta válida de sobra."
      "general" "intermedio" "" [] [] "es" (mkRat 4 5) [] "2024-02-02"
      = .ok c10item
    ∧ "  ¿Qué?   ".length = 10
    ∧ c10item.pregunta = "¿Qué?"
    ∧ c10item.pregunta.length = 5 :=
  ⟨rfl, rfl, rfl, rfl⟩

/-- C8: the CSV export writes no file exactly for an empty record list (a
logged no-op, not an error), and otherwise writes a file whose header —
always present — is the lexicographically sorted, duplicate-free union of
the keys of all projected rows, with one row per record. -/
theorem c8_csv_columns (items : List QAItem) (m : Bool) :
    (export_to_csv items m = none ↔ items = [])
    ∧ ∀ f, export_to_csv items m = some f →
        f.header.Sorted (· ≤ ·)
        ∧ f.header.Nodup
        ∧ (∀ c, c ∈ f.header
            ↔ ∃ row ∈ prepare_export_data items m, c ∈ row.map Prod.fst)
        ∧ f.rows.length = items.length := by
  have hlen : (prepare_export_data items m).length = items.length := by
    simp [prepare_export_data]
  simp only [export_to_csv]
  split
  · next hd =>
    have hnil : items = [] := by
      have := List.isEmpty_iff.mp hd
      rw [this] at hlen
      exact (List.length_eq_zero.mp hlen.symm)
    constructor
    · simp [hnil]
    · intro f hf
      exact absurd hf (by simp)
  · next hd =>
    have hne : items ≠ [] := by
      intro hnil
      apply hd
      rw [List.isEmpty_iff]
      have : (prepare_export_data items m).length = 0 := by
        rw [hlen, hnil]
        rfl
      exact List.length_eq_zero.mp this
    refine ⟨by simp [hne], ?_⟩
    intro f hf
    injection hf with hf
    subst hf
    refine ⟨List.sorted_insertionSort _ _, ?_, ?_, ?_⟩
    · exact ((List.perm_insertionSort _ _).nodup_iff).mpr (List.nodup_dedup _)
    · intro c
      simp [List.mem_insertionSort, List.mem_dedup, List.mem_flatMap]
    · simp [hlen]

/-- C8 witness: the empty no-op case and a concrete two-record export with
differing per-row key sets. -/
theorem c8_witness :
    export_to_csv ([] : List QAItem) true = none
    ∧ c8file.header.Sorted (· ≤ ·)
    ∧ c8file.header.Nodup :=
  ⟨((c8_csv_columns [] true).1).mpr rfl,
   ((c8_csv_columns [itemSecond, itemNoKeyword] true).2 c8file rfl).1,
   ((c8_csv_columns [itemSecond, itemNoKeyword] true).2 c8file rfl).2.1⟩

/-- C9 (amended): `QAExporter.export` succeeds exactly for the two
implemented formats `csv` and `json`; every other requested format —
including `xlsx` and `yaml`, which the exporter itself advertises in
`supported_formats` — raises a plain `ValueError` (there is no dedicated
`UnsupportedFormatError` type). -/
theorem c9_export_formats (outDir now : String) (cfg : ExportConfig)
    (items : List QAItem) :
    ((exportData outDir now cfg items).isOk
      ↔ cfg.formato = "csv" ∨ cfg.formato = "json")
    ∧ ((exportData outDir now cfg items)
        = .error ("Formato no soportado: " ++ cfg.formato)
      ↔ cfg.formato ≠ "csv" ∧ cfg.formato ≠ "json") := by
  constructor
  · by_cases h1 : cfg.formato = "csv"
    · simp [exportData, h1, Except.isOk, Except.toBool]
    · by_cases h2 : cfg.formato = "json"
      · simp [exportData, h1, h2, Except.isOk, Except.toBool]
      · simp [exportData, h1, h2, Except.isOk, Except.toBool]
  · by_cases h1 : cfg.formato = "csv"
    · simp [exportData, h1]
    · by_cases h2 : cfg.formato = "json"
      · simp [exportData, h1, h2]
      · simp [exportData, h1, h2]

/-- C9 counterexample: `xlsx` is in the advertised supported set, yet the
export raises for it. -/
theorem c9_counterexample :
    "xlsx" ∈ supported_formats
    ∧ cfgXlsx.formato = "xlsx"
    ∧ exportData "salida_dir" "20240101_000000" cfgXlsx [itemNoKeyword]
      = .error "Formato no soportado: xlsx" :=
  ⟨by decide, rfl, rfl⟩

end QAGen
